import Mathlib

/-!
Shallow embedding of the factotum job runner (`src/src/lib.rs`) together with
the collaborator interfaces it drives (parser, executor, webhook dispatcher),
and proofs of the specification claims about it.

Conventions of the embedding:
* Rust `Option`/`Result` become Lean `Option`/`Except`.
* `std::time::Duration` is a pair of seconds and sub-second nanoseconds;
  addition normalizes the nanosecond carry exactly as the Rust type does.
* Terminal styling from the `colored` crate (`.cyan()`, `.red()`, ...) is
  presentation-only ANSI wrapping that depends on the terminal, so the
  embedding models each styling call as the identity on the text.
* `print!`/`println!` effects are modelled as a list of emitted strings.
* Components that live in the `factotum::*` submodules (not present under
  `src/`) are modelled from the specification; each such definition carries a
  doc comment saying so.
-/

namespace Factotum

/-- Styling `colored::cyan`: presentation-only styling, modelled as the identity. -/
def cyan (s : String) : String := s

/-- Styling `colored::green`: presentation-only styling, modelled as the identity. -/
def green (s : String) : String := s

/-- Styling `colored::red`: presentation-only styling, modelled as the identity. -/
def red (s : String) : String := s

/-- Styling `colored::bold`: presentation-only styling, modelled as the identity. -/
def bold (s : String) : String := s

/-- Splitting accumulator: the splitter of `str::split(char)`, over the
character list of the string (structural recursion, so the kernel can
evaluate it; core `String.splitOn` is not kernel-reducible). -/
def splitOnCharAux (c : Char) : List Char → List Char → List String
  | [], cur => [⟨cur.reverse⟩]
  | x :: xs, cur =>
    if x = c then ⟨cur.reverse⟩ :: splitOnCharAux c xs []
    else splitOnCharAux c xs (x :: cur)

/-- Rust `str::split(c)`: the substrings between occurrences of `c`
(an empty string yields `[""]`, adjacent separators yield empty pieces). -/
def splitOnChar (c : Char) (s : String) : List String :=
  splitOnCharAux c s.data []

/-- Rust `str::trim_left`: drop leading whitespace. -/
def trimLeftStr (s : String) : String :=
  ⟨s.data.dropWhile Char.isWhitespace⟩

/-- Rust `str::trim_right`: drop trailing whitespace. -/
def trimRightStr (s : String) : String :=
  ⟨(s.data.reverse.dropWhile Char.isWhitespace).reverse⟩

/-- Rust `str::trim`: drop leading and trailing whitespace. -/
def trimStr (s : String) : String :=
  trimLeftStr (trimRightStr s)

/-- Rust `str::starts_with`: prefix test on the character lists. -/
def startsWithStr (s p : String) : Bool :=
  p.data.isPrefixOf s.data

/-- Process exit code for success (`PROC_SUCCESS` in `lib.rs`). -/
def PROC_SUCCESS : Int := 0

/-- Process exit code for a parse/validation error (`PROC_PARSE_ERROR`). -/
def PROC_PARSE_ERROR : Int := 1

/-- Process exit code when one or more tasks failed (`PROC_EXEC_ERROR`). -/
def PROC_EXEC_ERROR : Int := 2

/-- Process exit code for other errors such as a rejected start point
(`PROC_OTHER_ERROR`). -/
def PROC_OTHER_ERROR : Int := 3

/-- Rust `std::time::Duration`: seconds plus sub-second nanoseconds. -/
structure Duration where
  secs : Nat
  nanos : Nat
  deriving Repr, DecidableEq

/-- Constructor `Duration::new`, normalizing the nanosecond carry into seconds. -/
def Duration.new (s n : Nat) : Duration :=
  { secs := s + n / 1000000000, nanos := n % 1000000000 }

/-- Addition of durations (`impl Add for Duration`). -/
def Duration.add (a b : Duration) : Duration :=
  Duration.new (a.secs + b.secs) (a.nanos + b.nanos)

/-- The number of tenths of a second in a duration, rounded to nearest with
ties to even: the exact decimal rounding performed by Rust's `{:.1}`
formatting of `secs + nanos / 1e9` (exact for every value the program
produces from whole nanosecond counts). -/
def duration_tenths (d : Duration) : Nat :=
  let totalNanos := d.secs * 1000000000 + d.nanos
  let q := totalNanos / 100000000
  let r := totalNanos % 100000000
  if r > 50000000 then q + 1
  else if r < 50000000 then q
  else if q % 2 = 0 then q else q + 1

/-- Function `get_duration_as_string` from `lib.rs`: seconds with one decimal under a
minute, `m, s` under an hour, `h, m, s` otherwise. -/
def get_duration_as_string (d : Duration) : String :=
  if d.secs < 60 then
    toString (duration_tenths d / 10) ++ "." ++ toString (duration_tenths d % 10) ++ "s"
  else if 60 ≤ d.secs ∧ d.secs < 3600 then
    toString ((d.secs / 60) % 60) ++ "m, " ++ toString (d.secs % 60) ++ "s"
  else
    toString (d.secs / 3600) ++ "h, " ++ toString ((d.secs / 60) % 60) ++ "m, " ++
      toString (d.secs % 60) ++ "s"

/-- Model of `factotum::factfile::OnResult`: the per-task return-code classification. -/
structure OnResult where
  continue_job : List Int
  terminate_job : List Int
  deriving Repr, DecidableEq

/-- Model of `factotum::factfile::Task`: the static task specification. -/
structure FactfileTask where
  name : String
  depends_on : List String
  executor : String
  command : String
  arguments : List String
  on_result : OnResult
  deriving Repr, DecidableEq

/-- Model of `factotum::factfile::Factfile`: a validated job document. -/
structure Factfile where
  name : String
  raw : String
  tasks : List FactfileTask
  deriving Repr, DecidableEq

/-- Model of `factotum::executor::execution_strategy::RunResult`: what one strategy
invocation reports back. -/
structure RunResult where
  duration : Duration
  task_execution_error : Option String
  stdout : Option String
  stderr : Option String
  return_code : Int
  deriving Repr, DecidableEq

/-- Model of `factotum::executor::task_list::State`: the task lifecycle state. -/
inductive State where
  | waiting
  | running
  | success
  | successNoop
  | failed (reason : String)
  | skipped (reason : String)
  deriving Repr, DecidableEq

/-- Whether a state is `Failed(_)` (the `if let State::Failed(_)` tests in
`lib.rs`). -/
def State.isFailed : State → Bool
  | .failed _ => true
  | _ => false

/-- Whether a state is `SuccessNoop` (the `match r.state` tests in
`lib.rs`). -/
def State.isSuccessNoop : State → Bool
  | .successNoop => true
  | _ => false

/-- Model of `factotum::executor::task_list::Task<&FactfileTask>`: a task run record.
The back reference to the task specification is omitted: none of the code
embedded here reads it back out of the record.  `run_started` keeps the
timestamp as the string the program would display. -/
structure Task where
  name : String
  state : State
  run_started : Option String
  run_result : Option RunResult
  deriving Repr, DecidableEq

/-- Function `get_task_result_line_str` from `lib.rs`: the per-task report line and the
optional stderr block.  (In the source the `run_started` timestamp is
`unwrap()`ed when a `run_result` is present; the embedding reads it with a
default, which only differs where the source would panic.) -/
def get_task_result_line_str (task_result : Task) : String × Option String :=
  match task_result.run_result with
  | some res =>
    let start_time := task_result.run_started.getD ""
    let opener := "Task '" ++ cyan task_result.name ++ "' was started at " ++ start_time ++ "\n"
    let output := res.stdout.map fun o =>
      "Task '" ++ cyan task_result.name ++ "' stdout:\n" ++ bold (trimRightStr o) ++ "\n"
    let errors := res.stderr.map fun e =>
      "Task '" ++ cyan task_result.name ++ "' stderr:\n" ++ red (trimRightStr e) ++ "\n"
    let summary :=
      match res.task_execution_error, task_result.state with
      | some task_exec_error_msg, _ =>
        red "Task '" ++ cyan task_result.name ++
          red ("': couldn't be started. Reason: " ++ task_exec_error_msg)
      | none, State.failed fail_reason =>
        red "Task '" ++ cyan task_result.name ++
          red ("': failed after " ++ get_duration_as_string res.duration ++
            ". Reason: " ++ fail_reason)
      | none, _ =>
        green "Task '" ++ cyan task_result.name ++
          green ("': succeeded after " ++ get_duration_as_string res.duration)
    let result := opener ++ output.getD "" ++
      (if summary.length > 0 then summary ++ "\n" else "")
    (result, errors)
  | none =>
    let reason_for_not_running :=
      if task_result.state.isFailed then red "Factotum could not start the task" else "skipped"
    ("Task '" ++ cyan task_result.name ++ "': " ++ reason_for_not_running ++ "!\n", none)

/-- The accumulating loop of `get_task_results_str`: threads the collected
stdout text, stderr text, total run time and executed count through the task
list. -/
def resultsLoop : List Task → String × String × Duration × Nat → String × String × Duration × Nat
  | [], acc => acc
  | task :: rest, (stdout, stderr, total, executed) =>
    let line := get_task_result_line_str task
    let stdout := stdout ++ line.1
    let stderr := match line.2 with
      | some e => stderr ++ e
      | none => stderr
    match task.run_result with
    | some run_result => resultsLoop rest (stdout, stderr, total.add run_result.duration, executed + 1)
    | none => resultsLoop rest (stdout, stderr, total, executed)

/-- Function `get_task_results_str` from `lib.rs`: all task report lines followed by
the `N/M tasks run in T` summary, and the concatenated stderr blocks. -/
def get_task_results_str (task_results : List Task) : String × String :=
  let acc := resultsLoop task_results ("", "", Duration.new 0 0, 0)
  let summary := toString acc.2.2.2 ++ "/" ++ toString task_results.length ++
    " tasks run in " ++ get_duration_as_string acc.2.2.1 ++ "\n"
  (acc.1 ++ green summary, acc.2.1)

/-- The insert operation of the `HashMap` that `get_tag_map` builds:
replacing the value in place when the key is present, appending otherwise. -/
def mapInsert (m : List (String × String)) (k v : String) : List (String × String) :=
  if m.any fun p => p.1 == k then
    m.map fun p => if p.1 == k then (k, v) else p
  else
    m ++ [(k, v)]

/-- Function `get_tag_map` from `lib.rs`: each `--tag` argument is split on commas; a
non-empty trimmed key maps to the trimmed concatenation of the remaining
segments (empty when there is no comma). -/
def get_tag_map (args : List String) : List (String × String) :=
  args.foldl
    (fun arg_map arg =>
      let split := splitOnChar ',' arg
      if 2 ≤ split.length ∧ ¬(trimStr (split.headD "")).isEmpty then
        mapInsert arg_map (trimStr (split.headD "")) (trimStr (String.join (split.drop 1)))
      else if split.length = 1 ∧ ¬(trimStr (split.headD "")).isEmpty then
        mapInsert arg_map (trimStr (split.headD "")) ""
      else arg_map)
    []

/-- The tag-map entry for one argument as the specification words it: keys
and values trimmed, the value being the join of all comma-separated segments
after the first, no entry for an empty or whitespace-only key, an empty value
for a lone key. -/
def tag_entry_spec (arg : String) : Option (String × String) :=
  let segments := splitOnChar ',' arg
  let key := trimStr (segments.headD "")
  if key.isEmpty then none
  else some (key, trimStr (String.join (segments.drop 1)))

/-- The tag map as the specification describes it: the fold of the
per-argument entries of `tag_entry_spec`. -/
def get_tag_map_spec (args : List String) : List (String × String) :=
  args.foldl
    (fun arg_map arg =>
      match tag_entry_spec arg with
      | some kv => mapInsert arg_map kv.1 kv.2
      | none => arg_map)
    []

/-- Function `is_valid_url` from `lib.rs`, parameterized over the external
`hyper::Url::parse` (a third-party parser, abstracted as a function
returning `Ok` or a message). -/
def is_valid_url (url_parse : String → Except String Unit) (url : String) :
    Except String Unit :=
  if startsWithStr url "http://" || startsWithStr url "https://" then
    match url_parse url with
    | .ok _ => .ok ()
    | .error msg => .error msg
  else
    .error "URL must begin with 'http://' or 'https://'."

/-- Whether the job contains a task of the given name
(`Factfile::has_task`, not under `src/`; membership in the task list). -/
def Factfile.has_task (job : Factfile) (n : String) : Bool :=
  job.tasks.any fun t => t.name == n

/-- The direct children of a node: the tasks that list it in `depends_on`. -/
def childrenOf (tasks : List FactfileTask) (n : String) : List String :=
  (tasks.filter fun t => t.depends_on.contains n).map fun t => t.name

/-- Breadth-first accumulation of transitive descendants, fuelled by the
number of tasks. -/
def descendantsAux (tasks : List FactfileTask) :
    Nat → List String → List String → List String
  | 0, _, acc => acc
  | fuel + 1, frontier, acc =>
    match frontier with
    | [] => acc
    | n :: rest =>
      let kids := (childrenOf tasks n).filter fun k => ¬acc.contains k
      descendantsAux tasks fuel (rest ++ kids) (acc ++ kids)

/-- Modelled from the spec: `descendants(name)` of the graph model (the
`factotum::factfile` module is not under `src/`) — the transitive
dependents of a task, the task itself excluded. -/
def Factfile.descendants (job : Factfile) (s : String) : List String :=
  descendantsAux job.tasks (job.tasks.length * job.tasks.length + 1) [s] []

/-- Modelled from the spec: start-point admissibility — with
`D = {start} ∪ descendants(start)`, a start point is admissible when no
descendant has a dependency on a node outside `D`. -/
def Factfile.admissible (job : Factfile) (s : String) : Bool :=
  let d := s :: job.descendants s
  (job.descendants s).all fun t =>
    match job.tasks.find? fun ft => ft.name == t with
    | some ft => ft.depends_on.all fun dep => d.contains dep
    | none => true

/-- Modelled from the spec: `Factfile::can_job_run_from_task` (not under
`src/`): `Err` with the missing-name message when the task does not exist,
otherwise `Ok` of the admissibility verdict. -/
def can_job_run_from_task (job : Factfile) (start_task : String) :
    Except String Bool :=
  if job.has_task start_task then .ok (job.admissible start_task)
  else .error "the task specified could not be found"

/-- Function `validate_start_task` from `lib.rs`: maps an inadmissible verdict to the
fixed rejection message and passes the graph model's error through. -/
def validate_start_task (job : Factfile) (start_task : String) :
    Except String Unit :=
  match can_job_run_from_task job start_task with
  | .ok is_good =>
    if is_good then .ok ()
    else .error "the job cannot be started here without triggering prior tasks"
  | .error msg => .error msg

/-- Model of `factotum::parser::TaskReturnCodeMapping`: the fixed classification pair
an override policy can impose. -/
structure TaskReturnCodeMapping where
  continue_job : List Int
  terminate_early : List Int
  deriving Repr, DecidableEq

/-- Model of `factotum::parser::OverrideResultMappings`: leave classifications intact,
or replace every task's classification with a fixed pair. -/
inductive OverrideResultMappings where
  | no_override
  | all (mapping : TaskReturnCodeMapping)
  deriving Repr, DecidableEq

/-- Modelled from the spec: the override step of `factotum::parser::parse`
(not under `src/`) — `All(mapping)` replaces every task's classification
with the fixed pair, `None` leaves the job untouched. -/
def applyOverride (ov : OverrideResultMappings) (ff : Factfile) : Factfile :=
  match ov with
  | .no_override => ff
  | .all mapping =>
    { ff with tasks := ff.tasks.map fun t =>
        { t with on_result :=
            { continue_job := mapping.continue_job
              terminate_job := mapping.terminate_early } } }

/-- Modelled from the spec: the simulation strategy
(`execution_strategy::execute_simulation`, not under `src/`) — returns
immediately with return code 0, stdout `"simulated"`, and no launch error. -/
def execute_simulation : FactfileTask → RunResult := fun _ =>
  { duration := Duration.new 0 0
    task_execution_error := none
    stdout := some "simulated"
    stderr := none
    return_code := 0 }

/-- Modelled from the spec: result classification (§4.5) — a launch error is
`Failed`, a return code in `continue_job` is `Success`, one in
`terminate_job` is `SuccessNoop`, anything else is `Failed`. -/
def classify_result (t : FactfileTask) (r : RunResult) : State :=
  match r.task_execution_error with
  | some msg => .failed msg
  | none =>
    if t.on_result.continue_job.contains r.return_code then .success
    else if t.on_result.terminate_job.contains r.return_code then .successNoop
    else .failed ("return code " ++ toString r.return_code ++ " not recognized")

/-- Modelled from the spec: Kahn-style level extraction (§4.4) — repeatedly
emit the tasks with no unresolved dependency inside the remaining subgraph,
fuelled by the task count. -/
def levelsAux : Nat → List FactfileTask → List (List FactfileTask)
  | 0, _ => []
  | fuel + 1, remaining =>
    if remaining.isEmpty then []
    else
      let ready := remaining.filter fun t =>
        !(t.depends_on.any fun d => remaining.any fun r => r.name == d)
      if ready.isEmpty then []
      else ready :: levelsAux fuel (remaining.filter fun t =>
        !(ready.any fun r => r.name == t.name))

/-- Modelled from the spec: the subgraph the planner operates on — the start
task and its descendants when a start was given, all tasks otherwise. -/
def selectTasks (job : Factfile) (start_from : Option String) : List FactfileTask :=
  match start_from with
  | some s => job.tasks.filter fun t => t.name == s || (job.descendants s).contains t.name
  | none => job.tasks

/-- A record for a task the propagator marked `Skipped`. -/
def mk_skipped_task (n : String) : Task :=
  { name := n
    state := .skipped "a previous task failed or requested an early finish"
    run_started := none
    run_result := none }

/-- Running one task through a strategy and classifying the outcome. -/
def run_task (strategy : FactfileTask → RunResult) (t : FactfileTask) : Task :=
  let r := strategy t
  { name := t.name
    state := classify_result t r
    run_started := some "run"
    run_result := some r }

/-- Modelled from the spec: one level of execution followed by propagation —
tasks already marked skipped stay skipped; after the level settles, the
descendants of every `Failed` or `SuccessNoop` task are added to the skip
set. -/
def execStep (strategy : FactfileTask → RunResult) (job : Factfile)
    (acc : List (List Task) × List String) (level : List FactfileTask) :
    List (List Task) × List String :=
  let results := level.map fun t =>
    if acc.2.contains t.name then mk_skipped_task t.name else run_task strategy t
  let skipped := results.foldl
    (fun sk res =>
      if res.state.isFailed || res.state.isSuccessNoop then sk ++ job.descendants res.name
      else sk)
    acc.2
  (acc.1 ++ [results], skipped)

/-- The result the executor hands back: the task run records grouped by
level (`job_res.tasks` in `lib.rs`). -/
structure JobRunResult where
  tasks : List (List Task)
  deriving Repr, DecidableEq

/-- Modelled from the spec: `factotum::executor::execute_factfile` (not under
`src/`) — plan the levels of the selected subgraph and run them in order
through the strategy, propagating skips between levels. -/
def execute_factfile (strategy : FactfileTask → RunResult) (job : Factfile)
    (start_from : Option String) : JobRunResult :=
  let selected := selectTasks job start_from
  { tasks := ((levelsAux selected.length selected).foldl (execStep strategy job) ([], [])).1 }

/-- The final counters the webhook dispatcher reports when joined
(`factotum::webhook`, not under `src/`). -/
structure WebhookResult where
  events_received : Nat
  success_count : Nat
  deriving Repr, DecidableEq

/-- The observable outcome of a driver run: the process exit code and the
strings printed to the console, in order. -/
structure ExecReport where
  exitCode : Int
  printed : List String
  deriving Repr, DecidableEq

/-- The names of the tasks with no populated `run_result`, quoted and
comma-joined (the `incomplete_tasks` expression in
`parse_file_and_execute_with_strategy`). -/
def incomplete_tasks_str (tasks : List Task) : String :=
  String.intercalate ", "
    ((tasks.filter fun r => !r.run_result.isSome).map fun r => "'" ++ cyan r.name ++ "'")

/-- The names of the tasks in state `SuccessNoop`, quoted and comma-joined
(the `stop_requesters` expression). -/
def stop_requesters_str (tasks : List Task) : String :=
  String.intercalate ", "
    ((tasks.filter fun r => r.state.isSuccessNoop).map fun r => "'" ++ cyan r.name ++ "'")

/-- The names of the tasks in state `Failed(_)`, quoted and comma-joined
(the `failed_tasks` expression). -/
def failed_tasks_str (tasks : List Task) : String :=
  String.intercalate ", "
    ((tasks.filter fun r => r.state.isFailed).map fun r => "'" ++ cyan r.name ++ "'")

/-- The early-finish console message of
`parse_file_and_execute_with_strategy`. -/
def early_finish_message (tasks : List Task) : String :=
  "Factotum job finished early as a task (" ++ stop_requesters_str tasks ++
    ") requested an early finish. The following tasks were not run: " ++
    incomplete_tasks_str tasks ++ "."

/-- The abnormal-completion console message of
`parse_file_and_execute_with_strategy`. -/
def abnormal_message (tasks : List Task) : String :=
  "Factotum job executed abnormally as a task (" ++ failed_tasks_str tasks ++
    ") failed - the following tasks were not run: " ++ incomplete_tasks_str tasks ++ "!"

/-- The outcome classification and console output of the driver once the
executor has returned: the exit code and the printed summary lines, exactly
following the `normal_completion` / early-finish / abnormal branches of
`parse_file_and_execute_with_strategy`. -/
def finish_report (tasks : List Task) : Int × List String :=
  let has_errors := tasks.any fun t => t.state.isFailed
  let has_early_finish := tasks.any fun t => t.state.isSuccessNoop
  let summaries := get_task_results_str tasks
  let base := [summaries.1] ++
    (if (trimRightStr summaries.2).isEmpty then [] else [trimRightStr summaries.2])
  if !has_errors && !has_early_finish then (PROC_SUCCESS, base)
  else if has_early_finish && !has_errors then
    (PROC_SUCCESS, base ++ [early_finish_message tasks])
  else
    (PROC_EXEC_ERROR, base ++ [abnormal_message tasks])

/-- The start-point gate of `parse_file_and_execute_with_strategy`: `none`
when execution may proceed, otherwise the rejection message printed before
returning `PROC_OTHER_ERROR`. -/
def start_check (job : Factfile) (start_from : Option String) : Option String :=
  match start_from with
  | some start_task =>
    match validate_start_task job start_task with
    | .error msg =>
      some ("The job cannot be started from '" ++ cyan start_task ++ "' because " ++ msg)
    | .ok _ => none
  | none => none

/-- The lines the driver prints while draining the webhook dispatcher: the
wait notice, the completion notice, and the warning exactly when the
dispatcher received more events than it sent successfully. -/
def webhook_prints (w : WebhookResult) : List String :=
  ["Waiting for webhook to finish sending events...", green " done!"] ++
    (if w.success_count < w.events_received then [red "Warning: some events failed to send"]
     else [])

/-- Driver `parse_file_and_execute_with_strategy` from `lib.rs`.  The file/environment
parse is abstracted as its outcome `parse_result` (the override policy is then
applied by the modelled parser step); the strategy together with the missing
`execute_factfile` is abstracted as `executor` (instantiated with the modelled
`execute_factfile` for the simulation path); the webhook URL, tags and capture
bound only configure the dispatcher, whose joined counters appear as
`webhook_result` when a webhook was configured. -/
def parse_file_and_execute_with_strategy
    (parse_result : Except String Factfile)
    (override_result_map : OverrideResultMappings)
    (start_from : Option String)
    (executor : Factfile → Option String → JobRunResult)
    (webhook_result : Option WebhookResult) : ExecReport :=
  match parse_result.map (applyOverride override_result_map) with
  | .error msg => { exitCode := PROC_PARSE_ERROR, printed := [msg] }
  | .ok job =>
    match start_check job start_from with
    | some msg => { exitCode := PROC_OTHER_ERROR, printed := [msg] }
    | none =>
      let job_res := executor job start_from
      let tasks := job_res.tasks.flatten
      let report := finish_report tasks
      { exitCode := report.1
        printed := report.2 ++
          (match webhook_result with
           | some w => webhook_prints w
           | none => []) }

/-- Function `parse_file_and_simulate` from `lib.rs`: the `--dry-run` path — the
simulation strategy together with an override replacing every classification
by `continue_job = [0]`, `terminate_early = []`, and no webhook. -/
def parse_file_and_simulate (parse_result : Except String Factfile)
    (start_from : Option String) : ExecReport :=
  parse_file_and_execute_with_strategy parse_result
    (.all { continue_job := [0], terminate_early := [] })
    start_from
    (execute_factfile execute_simulation)
    none

/-- Whether the driver rejects the requested start point. -/
def startRejected (job : Factfile) (start_from : Option String) : Bool :=
  (start_check job start_from).isSome

/-! ## Specification-side descriptions used to state the claims -/

/-- The concatenation of the per-task report lines (first components of
`get_task_result_line_str`). -/
def task_lines_stdout : List Task → String
  | [] => ""
  | t :: rest => (get_task_result_line_str t).1 ++ task_lines_stdout rest

/-- The concatenation of the per-task stderr blocks (second components of
`get_task_result_line_str`, empty when absent). -/
def task_lines_stderr : List Task → String
  | [] => ""
  | t :: rest =>
    (match (get_task_result_line_str t).2 with
     | some e => e
     | none => "") ++ task_lines_stderr rest

/-- The number of tasks whose `run_result` is populated. -/
def executed_count (l : List Task) : Nat :=
  (l.filter fun t => t.run_result.isSome).length

/-- The sum of the durations of exactly the tasks whose `run_result` is
populated. -/
def total_run_time (l : List Task) : Duration :=
  (l.filterMap fun t => t.run_result).foldl (fun a r => a.add r.duration) (Duration.new 0 0)

lemma resultsLoop_eq (l : List Task) : ∀ so se d n,
    resultsLoop l (so, se, d, n) =
      (so ++ task_lines_stdout l, se ++ task_lines_stderr l,
        (l.filterMap fun t => t.run_result).foldl (fun a r => a.add r.duration) d,
        n + executed_count l) := by
  induction l with
  | nil =>
    intro so se d n
    simp [resultsLoop, task_lines_stdout, task_lines_stderr, executed_count]
  | cons t rest ih =>
    intro so se d n
    have hstderr :
        (match (get_task_result_line_str t).2 with
         | some e => se ++ e
         | none => se) =
        se ++ (match (get_task_result_line_str t).2 with
               | some e => e
               | none => "") := by
      cases (get_task_result_line_str t).2 <;> simp
    cases hrr : t.run_result with
    | some r =>
      simp only [resultsLoop, hrr, ih, hstderr]
      refine Prod.ext ?_ (Prod.ext ?_ (Prod.ext ?_ ?_)) <;>
        simp [task_lines_stdout, task_lines_stderr, executed_count,
          List.filterMap_cons, List.filter_cons, hrr, String.append_assoc]
      omega
    | none =>
      simp only [resultsLoop, hrr, ih, hstderr]
      refine Prod.ext ?_ (Prod.ext ?_ (Prod.ext ?_ ?_)) <;>
        simp [task_lines_stdout, task_lines_stderr, executed_count,
          List.filterMap_cons, List.filter_cons, hrr, String.append_assoc]

/-! ## Claims -/

/-- C8. For the empty list of task results, `get_task_results_str` produces
the summary line `0/0 tasks run in 0.0s` (the zero duration rendered by
`get_duration_as_string` as `0.0s`) and an empty stderr string. -/
theorem get_task_results_str_empty :
    get_task_results_str [] = ("0/0 tasks run in 0.0s\n", "") ∧
    get_duration_as_string (Duration.new 0 0) = "0.0s" := by
  constructor <;> rfl

/-- C9. For every list of task results, the summary of
`get_task_results_str` reports `N/M tasks run` with `N` the number of tasks
whose `run_result` is populated and `M` the length of the list, the total
run time being the sum of the durations of exactly those `N` tasks; the
other tasks contribute neither to `N` nor to the time. -/
theorem get_task_results_str_counts (tasks : List Task) :
    get_task_results_str tasks =
      (task_lines_stdout tasks ++
        green (toString (executed_count tasks) ++ "/" ++ toString tasks.length ++
          " tasks run in " ++ get_duration_as_string (total_run_time tasks) ++ "\n"),
       task_lines_stderr tasks) := by
  simp [get_task_results_str, resultsLoop_eq, total_run_time]

/-- C10. For every task record with no populated `run_result`,
`get_task_result_line_str` returns no stderr text, and an opening line
determined only by the state: `Failed(_)` yields
`Task '<name>': Factotum could not start the task!`, every other state
yields `Task '<name>': skipped!`. -/
theorem get_task_result_line_str_no_run_result (t : Task)
    (h : t.run_result = none) :
    get_task_result_line_str t =
      (if t.state.isFailed then
        "Task '" ++ cyan t.name ++ "': " ++ red "Factotum could not start the task" ++ "!\n"
       else "Task '" ++ cyan t.name ++ "': skipped!\n", none) := by
  simp only [get_task_result_line_str, h]
  by_cases hf : t.state.isFailed
  · simp [hf]
  · simp only [hf, Bool.false_eq_true, if_false, if_neg, Prod.mk.injEq, and_true]
    simp only [String.append_assoc]
    congr 2

/-- Witness for C10: a never-dispatched `Waiting` task is reported as
skipped, and a `Failed` task without a run result as unable to start. -/
theorem get_task_result_line_str_no_run_result_witness :
    get_task_result_line_str
        { name := "w", state := .waiting, run_started := none, run_result := none } =
      ("Task 'w': skipped!\n", none) ∧
    get_task_result_line_str
        { name := "f", state := .failed "boom", run_started := none, run_result := none } =
      ("Task 'f': Factotum could not start the task!\n", none) := by
  constructor
  · have h := get_task_result_line_str_no_run_result
      { name := "w", state := .waiting, run_started := none, run_result := none } rfl
    simpa [cyan, red, State.isFailed] using h
  · have h := get_task_result_line_str_no_run_result
      { name := "f", state := .failed "boom", run_started := none, run_result := none } rfl
    simpa [cyan, red, State.isFailed] using h

lemma tag_step_eq (m : List (String × String)) (arg : String) :
    (let split := splitOnChar ',' arg
     if 2 ≤ split.length ∧ ¬(trimStr (split.headD "")).isEmpty then
       mapInsert m (trimStr (split.headD "")) (trimStr (String.join (split.drop 1)))
     else if split.length = 1 ∧ ¬(trimStr (split.headD "")).isEmpty then
       mapInsert m (trimStr (split.headD "")) ""
     else m) =
      (match tag_entry_spec arg with
       | some kv => mapInsert m kv.1 kv.2
       | none => m) := by
  unfold tag_entry_spec
  cases hsegs : splitOnChar ',' arg with
  | nil =>
    have hempty : (trimStr "").isEmpty = true := by decide
    simp [hempty]
  | cons s0 rest =>
    by_cases hk : (trimStr s0).isEmpty
    · simp [hk]
    · cases rest with
      | nil =>
        have hjoin : trimStr (String.join ([] : List String)) = "" := by decide
        simp [hk, hjoin]
      | cons s1 rest2 =>
        have hlen : 2 ≤ (s0 :: s1 :: rest2).length := by
          simp only [List.length_cons]; omega
        simp [hk, hlen]

/-- C7. `get_tag_map` builds exactly the map the specification describes:
per argument, a non-empty trimmed key maps to the trimmed join of the
comma-separated segments after the first (empty for a lone key), and an
empty or whitespace-only key yields no entry. -/
theorem get_tag_map_matches_spec (args : List String) :
    get_tag_map args = get_tag_map_spec args := by
  unfold get_tag_map get_tag_map_spec
  apply List.foldl_ext
  intro m arg _
  exact tag_step_eq m arg

/-- C6. `is_valid_url` accepts exactly the strings that carry an `http://`
or `https://` prefix and satisfy the URL parser; a string without the prefix
is rejected outright, and a prefixed string the parser rejects is rejected
with the parser's message. -/
theorem is_valid_url_characterization (url_parse : String → Except String Unit)
    (url : String) :
    ((is_valid_url url_parse url = .ok ()) ↔
      ((startsWithStr url "http://" || startsWithStr url "https://") = true ∧
        url_parse url = .ok ())) ∧
    ((startsWithStr url "http://" || startsWithStr url "https://") = false →
      is_valid_url url_parse url = .error "URL must begin with 'http://' or 'https://'.") ∧
    (∀ msg, (startsWithStr url "http://" || startsWithStr url "https://") = true →
      url_parse url = .error msg → is_valid_url url_parse url = .error msg) := by
  refine ⟨?_, ?_, ?_⟩
  · constructor
    · intro h
      by_cases hp : (startsWithStr url "http://" || startsWithStr url "https://") = true
      · refine ⟨hp, ?_⟩
        simp only [is_valid_url, hp, if_true] at h
        cases hu : url_parse url with
        | ok u => rfl
        | error msg => simp [hu] at h
      · simp only [is_valid_url, hp] at h
        simp at hp
        simp [hp] at h
    · rintro ⟨hp, hu⟩
      simp [is_valid_url, hp, hu]
  · intro hp
    simp [is_valid_url, hp]
  · intro msg hp hu
    simp [is_valid_url, hp, hu]

/-- Witness for C6: with a parser accepting everything, a prefixed URL is
accepted and an unprefixed one is rejected with the fixed message; with a
parser rejecting everything, the parser's message is surfaced. -/
theorem is_valid_url_witness :
    is_valid_url (fun _ => .ok ()) "http://potato.com/" = .ok () ∧
    is_valid_url (fun _ => .ok ()) "potato.com/" =
      .error "URL must begin with 'http://' or 'https://'." ∧
    is_valid_url (fun _ => .error "empty host") "http://" = .error "empty host" := by
  refine ⟨?_, ?_, ?_⟩
  · exact (is_valid_url_characterization (fun _ => .ok ()) "http://potato.com/").1.mpr
      ⟨by decide, rfl⟩
  · exact (is_valid_url_characterization (fun _ => .ok ()) "potato.com/").2.1 (by decide)
  · exact (is_valid_url_characterization (fun _ => .error "empty host") "http://").2.2
      "empty host" (by decide) rfl

/-- C4. `validate_start_task` returns `Ok(())` exactly when the graph model
answers that the job can run from the task; an existing but inadmissible
start task is rejected with the fixed triggering-prior-tasks message, and a
missing task with the fixed not-found message. -/
theorem validate_start_task_characterization (job : Factfile) (s : String) :
    ((validate_start_task job s = .ok ()) ↔ can_job_run_from_task job s = .ok true) ∧
    (job.has_task s = true → job.admissible s = false →
      validate_start_task job s =
        .error "the job cannot be started here without triggering prior tasks") ∧
    (job.has_task s = false →
      validate_start_task job s = .error "the task specified could not be found") := by
  refine ⟨?_, ?_, ?_⟩
  · unfold validate_start_task can_job_run_from_task
    by_cases ht : job.has_task s
    · by_cases ha : job.admissible s <;> simp [ht, ha]
    · simp [ht]
  · intro ht ha
    simp [validate_start_task, can_job_run_from_task, ht, ha]
  · intro ht
    simp [validate_start_task, can_job_run_from_task, ht]

/-- The four-task diamond of the source's `test_start_task_cycles` unit test:
`b` and `c` depend on `a`, `d` depends on `b` and `c`. -/
def diamondFour : Factfile :=
  { name := "test"
    raw := "N/A"
    tasks :=
      [{ name := "a", depends_on := [], executor := "", command := "", arguments := [],
         on_result := { continue_job := [], terminate_job := [] } },
       { name := "b", depends_on := ["a"], executor := "", command := "", arguments := [],
         on_result := { continue_job := [], terminate_job := [] } },
       { name := "c", depends_on := ["a"], executor := "", command := "", arguments := [],
         on_result := { continue_job := [], terminate_job := [] } },
       { name := "d", depends_on := ["c", "b"], executor := "", command := "", arguments := [],
         on_result := { continue_job := [], terminate_job := [] } }] }

/-- Witness for C4: on the diamond of the source's unit test, starting at
`c` is rejected with the triggering-prior-tasks message, a missing task is
rejected with the not-found message, and starting at the root `a` is
accepted. -/
theorem validate_start_task_witness :
    validate_start_task diamondFour "c" =
      .error "the job cannot be started here without triggering prior tasks" ∧
    validate_start_task diamondFour "zzz" =
      .error "the task specified could not be found" ∧
    validate_start_task diamondFour "a" = .ok () := by
  refine ⟨?_, ?_, ?_⟩
  · exact (validate_start_task_characterization diamondFour "c").2.1 (by decide) (by decide)
  · exact (validate_start_task_characterization diamondFour "zzz").2.2 (by decide)
  · exact (validate_start_task_characterization diamondFour "a").1.mpr rfl

lemma finish_report_fst (tasks : List Task) :
    (finish_report tasks).1 =
      if tasks.any (fun t => t.state.isFailed) then PROC_EXEC_ERROR else PROC_SUCCESS := by
  unfold finish_report
  cases hE : tasks.any fun t => t.state.isFailed <;>
    cases hN : tasks.any fun t => t.state.isSuccessNoop <;> simp [hE, hN]

/-- C1. The driver's exit codes: a parse/validation failure exits 1; a
missing or inadmissible start task exits 3, and in that case the whole
outcome is independent of the executor (no task is dispatched); a run with
at least one `Failed` task exits 2 regardless of any `SuccessNoop`; every
other run exits 0. -/
theorem driver_exit_codes (parse_result : Except String Factfile)
    (override_result_map : OverrideResultMappings) (start_from : Option String)
    (executor : Factfile → Option String → JobRunResult)
    (webhook_result : Option WebhookResult) :
    ((parse_file_and_execute_with_strategy parse_result override_result_map
        start_from executor webhook_result).exitCode =
      match parse_result.map (applyOverride override_result_map) with
      | .error _ => PROC_PARSE_ERROR
      | .ok job =>
        if startRejected job start_from then PROC_OTHER_ERROR
        else if (executor job start_from).tasks.flatten.any (fun t => t.state.isFailed) then
          PROC_EXEC_ERROR
        else PROC_SUCCESS) ∧
    (∀ job, parse_result.map (applyOverride override_result_map) = .ok job →
      startRejected job start_from = true →
      ∀ executor2, parse_file_and_execute_with_strategy parse_result override_result_map
          start_from executor2 webhook_result =
        parse_file_and_execute_with_strategy parse_result override_result_map
          start_from executor webhook_result) := by
  constructor
  · unfold parse_file_and_execute_with_strategy
    cases h : parse_result.map (applyOverride override_result_map) with
    | error msg => simp
    | ok job =>
      cases hs : start_check job start_from with
      | some m => simp [startRejected, hs]
      | none => simp [startRejected, hs, finish_report_fst]
  · intro job hok hrej executor2
    obtain ⟨m, hm⟩ := Option.isSome_iff_exists.mp (by simpa [startRejected] using hrej)
    unfold parse_file_and_execute_with_strategy
    simp only [hok, hm]

/-- Witness for C1: on an empty job, a requested start task that does not
exist makes the driver return `PROC_OTHER_ERROR` for any executor. -/
theorem driver_exit_codes_witness :
    parse_file_and_execute_with_strategy
        (.ok { name := "j", raw := "{}", tasks := [] }) .no_override (some "x")
        (fun _ _ => { tasks := [[]] }) none =
      parse_file_and_execute_with_strategy
        (.ok { name := "j", raw := "{}", tasks := [] }) .no_override (some "x")
        (fun _ _ => { tasks := [] }) none := by
  exact (driver_exit_codes (.ok { name := "j", raw := "{}", tasks := [] }) .no_override
      (some "x") (fun _ _ => { tasks := [] }) none).2
    { name := "j", raw := "{}", tasks := [] } rfl (by decide) (fun _ _ => { tasks := [[]] })

/-- C2. In a run where some task ends `SuccessNoop` and none ends `Failed`,
the driver exits 0 and prints the early-finish summary, the requesters
being exactly the `SuccessNoop` tasks and the not-run list being exactly
the tasks with no populated `run_result`. -/
theorem driver_early_finish (parse_result : Except String Factfile)
    (override_result_map : OverrideResultMappings) (start_from : Option String)
    (executor : Factfile → Option String → JobRunResult)
    (webhook_result : Option WebhookResult) (job : Factfile)
    (hok : parse_result.map (applyOverride override_result_map) = .ok job)
    (hstart : start_check job start_from = none)
    (hNoop : (executor job start_from).tasks.flatten.any
      (fun t => t.state.isSuccessNoop) = true)
    (hNoFail : (executor job start_from).tasks.flatten.any
      (fun t => t.state.isFailed) = false) :
    (parse_file_and_execute_with_strategy parse_result override_result_map
        start_from executor webhook_result).exitCode = PROC_SUCCESS ∧
    ("Factotum job finished early as a task (" ++
        stop_requesters_str (executor job start_from).tasks.flatten ++
        ") requested an early finish. The following tasks were not run: " ++
        incomplete_tasks_str (executor job start_from).tasks.flatten ++ ".") ∈
      (parse_file_and_execute_with_strategy parse_result override_result_map
        start_from executor webhook_result).printed := by
  unfold parse_file_and_execute_with_strategy
  simp only [hok, hstart]
  unfold finish_report
  simp [hNoop, hNoFail, early_finish_message]

/-- A clean one-second run result with the given return code, used to build
concrete scenarios. -/
def plainRunResult (rc : Int) : RunResult :=
  { duration := Duration.new 1 0
    task_execution_error := none
    stdout := none
    stderr := none
    return_code := rc }

/-- The diamond run of the specification's scenario 2: `A` and `B` succeed,
`C` ends `SuccessNoop`, `D` is skipped with no run result. -/
def diamondNoopRun : JobRunResult :=
  { tasks :=
      [[{ name := "A", state := .success, run_started := some "t0",
          run_result := some (plainRunResult 0) }],
       [{ name := "B", state := .success, run_started := some "t1",
          run_result := some (plainRunResult 0) },
        { name := "C", state := .successNoop, run_started := some "t1",
          run_result := some (plainRunResult 3) }],
       [{ name := "D",
          state := .skipped "a previous task failed or requested an early finish",
          run_started := none, run_result := none }]] }

/-- Witness for C2: on the diamond scenario the driver exits 0 and prints
the early-finish summary naming `C` and listing `D` as not run. -/
theorem driver_early_finish_witness :
    (parse_file_and_execute_with_strategy (.ok { name := "j", raw := "{}", tasks := [] })
        .no_override none (fun _ _ => diamondNoopRun) none).exitCode = PROC_SUCCESS ∧
    ("Factotum job finished early as a task ('C') requested an early finish. " ++
        "The following tasks were not run: 'D'.") ∈
      (parse_file_and_execute_with_strategy (.ok { name := "j", raw := "{}", tasks := [] })
        .no_override none (fun _ _ => diamondNoopRun) none).printed := by
  have h := driver_early_finish (.ok { name := "j", raw := "{}", tasks := [] })
    .no_override none (fun _ _ => diamondNoopRun) none
    { name := "j", raw := "{}", tasks := [] } rfl rfl (by decide) (by decide)
  refine ⟨h.1, ?_⟩
  have hmsg :
      ("Factotum job finished early as a task (" ++
        stop_requesters_str diamondNoopRun.tasks.flatten ++
        ") requested an early finish. The following tasks were not run: " ++
        incomplete_tasks_str diamondNoopRun.tasks.flatten ++ ".") =
      ("Factotum job finished early as a task ('C') requested an early finish. " ++
        "The following tasks were not run: 'D'.") := by decide
  exact hmsg ▸ h.2

/-- C5. With a webhook configured and the run reaching completion, the
driver appends to its console output the wait notice, then `done!`, then
the events-failed warning exactly when the dispatcher's `events_received`
and `success_count` disagree (the dispatcher never reports more successes
than events); the exit code is the same as without a webhook. -/
theorem driver_webhook_drain (parse_result : Except String Factfile)
    (override_result_map : OverrideResultMappings) (start_from : Option String)
    (executor : Factfile → Option String → JobRunResult) (job : Factfile)
    (w : WebhookResult)
    (hok : parse_result.map (applyOverride override_result_map) = .ok job)
    (hstart : start_check job start_from = none)
    (hinv : w.success_count ≤ w.events_received) :
    (parse_file_and_execute_with_strategy parse_result override_result_map
        start_from executor (some w)).exitCode =
      (parse_file_and_execute_with_strategy parse_result override_result_map
        start_from executor none).exitCode ∧
    (parse_file_and_execute_with_strategy parse_result override_result_map
        start_from executor (some w)).printed =
      (parse_file_and_execute_with_strategy parse_result override_result_map
        start_from executor none).printed ++
        ["Waiting for webhook to finish sending events...", " done!"] ++
        (if w.events_received = w.success_count then []
         else ["Warning: some events failed to send"]) := by
  unfold parse_file_and_execute_with_strategy
  simp only [hok, hstart]
  refine ⟨trivial, ?_⟩
  simp only [webhook_prints, green, red, List.append_assoc, List.append_nil,
    List.append_cancel_left_eq]
  rcases Nat.lt_or_ge w.success_count w.events_received with hlt | hge
  · have hne : ¬w.events_received = w.success_count := by omega
    simp [hlt, hne]
  · have heq : w.events_received = w.success_count := by omega
    have hnlt : ¬w.success_count < w.events_received := by omega
    simp [hnlt, heq]

/-- Witness for C5: on a concrete completed run with one of two events
failed, the driver prints the drain notices and the warning and keeps exit
code 0. -/
theorem driver_webhook_drain_witness :
    (parse_file_and_execute_with_strategy (.ok { name := "j", raw := "{}", tasks := [] })
        .no_override none (fun _ _ => { tasks := [] })
        (some { events_received := 2, success_count := 1 })).printed =
      (parse_file_and_execute_with_strategy (.ok { name := "j", raw := "{}", tasks := [] })
        .no_override none (fun _ _ => { tasks := [] }) none).printed ++
        ["Waiting for webhook to finish sending events...", " done!"] ++
        ["Warning: some events failed to send"] := by
  have h := driver_webhook_drain (.ok { name := "j", raw := "{}", tasks := [] })
    .no_override none (fun _ _ => { tasks := [] })
    { name := "j", raw := "{}", tasks := [] }
    { events_received := 2, success_count := 1 } rfl rfl (by decide)
  simpa using h.2

lemma levelsAux_mem (fuel : Nat) : ∀ (l lvl : List FactfileTask),
    lvl ∈ levelsAux fuel l → ∀ t ∈ lvl, t ∈ l := by
  induction fuel with
  | zero =>
    intro l lvl h
    simp [levelsAux] at h
  | succ fuel ih =>
    intro l lvl h t ht
    unfold levelsAux at h
    by_cases hemp : l.isEmpty
    · simp [hemp] at h
    · simp only [hemp, Bool.false_eq_true, if_false] at h
      by_cases hready : (l.filter fun t =>
          !(t.depends_on.any fun d => l.any fun r => r.name == d)).isEmpty
      · simp [hready] at h
      · simp only [hready, Bool.false_eq_true, if_false, List.mem_cons] at h
        rcases h with h | h
        · subst h
          exact List.mem_of_mem_filter ht
        · exact List.mem_of_mem_filter (ih _ lvl h t ht)

lemma run_task_sim_success (t : FactfileTask)
    (h : t.on_result.continue_job.contains (0 : Int) = true) :
    (run_task execute_simulation t).state = State.success := by
  simp only [run_task, execute_simulation, classify_result, h, if_true]

lemma skip_fold_nil (job : Factfile) (results : List Task)
    (h : ∀ res ∈ results, res.state = State.success) : ∀ sk : List String,
    results.foldl
      (fun sk res =>
        if res.state.isFailed || res.state.isSuccessNoop then
          sk ++ job.descendants res.name
        else sk)
      sk = sk := by
  induction results with
  | nil => intro sk; rfl
  | cons r rs ih =>
    intro sk
    have hr := h r (by simp)
    have hrs : ∀ res ∈ rs, res.state = State.success := fun res hres => h res (by simp [hres])
    simp only [List.foldl_cons, hr, State.isFailed, State.isSuccessNoop, Bool.or_self,
      Bool.false_eq_true, if_false]
    exact ih hrs sk

lemma execSteps_sim_success (job : Factfile) :
    ∀ (ls : List (List FactfileTask)) (done : List (List Task)),
    (∀ lvl ∈ ls, ∀ t ∈ lvl, t.on_result.continue_job.contains (0 : Int) = true) →
    (∀ g ∈ done, ∀ x ∈ g, x.state = State.success) →
    (ls.foldl (execStep execute_simulation job) (done, [])).2 = [] ∧
    ∀ g ∈ (ls.foldl (execStep execute_simulation job) (done, [])).1,
      ∀ x ∈ g, x.state = State.success := by
  intro ls
  induction ls with
  | nil =>
    intro done hls hdone
    exact ⟨rfl, hdone⟩
  | cons lvl rest ih =>
    intro done hls hdone
    have hres_success : ∀ x ∈ lvl.map (run_task execute_simulation),
        x.state = State.success := by
      intro x hx
      obtain ⟨t, ht, rfl⟩ := List.mem_map.mp hx
      exact run_task_sim_success t (hls lvl (by simp) t ht)
    have hstep : execStep execute_simulation job (done, []) lvl =
        (done ++ [lvl.map (run_task execute_simulation)], []) := by
      unfold execStep
      simp only [List.contains_nil, Bool.false_eq_true, if_false]
      rw [skip_fold_nil job _ hres_success]
    rw [List.foldl_cons, hstep]
    apply ih
    · intro l hl t ht
      exact hls l (by simp [hl]) t ht
    · intro g hg x hx
      rcases List.mem_append.mp hg with hg | hg
      · exact hdone g hg x hx
      · rw [List.mem_singleton.mp hg] at hx
        exact hres_success x hx

lemma execute_factfile_sim_success (job : Factfile)
    (hjob : ∀ t ∈ job.tasks, t.on_result.continue_job.contains (0 : Int) = true)
    (start_from : Option String) :
    ∀ g ∈ (execute_factfile execute_simulation job start_from).tasks,
      ∀ x ∈ g, x.state = State.success := by
  have hsel : ∀ t ∈ selectTasks job start_from,
      t.on_result.continue_job.contains (0 : Int) = true := by
    intro t ht
    apply hjob
    unfold selectTasks at ht
    cases start_from with
    | some s => exact List.mem_of_mem_filter ht
    | none => exact ht
  have hlev : ∀ lvl ∈ levelsAux (selectTasks job start_from).length
      (selectTasks job start_from), ∀ t ∈ lvl,
      t.on_result.continue_job.contains (0 : Int) = true :=
    fun lvl hlvl t ht => hsel t (levelsAux_mem _ _ lvl hlvl t ht)
  exact (execSteps_sim_success job _ [] hlev (by simp)).2

/-- The fixed override mapping of the `--dry-run` path. -/
def dryRunMapping : TaskReturnCodeMapping :=
  { continue_job := [0], terminate_early := [] }

/-- C3. The `--dry-run` path: `parse_file_and_simulate` runs the job through
the simulation strategy with every task's classification replaced by
`continue_job = [0]`, `terminate_early = []`; every task of a validated job
then ends in state `Success` and the driver exits 0. -/
theorem dry_run_all_success (ff : Factfile) :
    ((applyOverride (.all dryRunMapping) ff).tasks.all
      fun t => t.on_result = { continue_job := [0], terminate_job := [] }) = true ∧
    parse_file_and_simulate (.ok ff) none =
      parse_file_and_execute_with_strategy (.ok ff) (.all dryRunMapping) none
        (execute_factfile execute_simulation) none ∧
    ((execute_factfile execute_simulation (applyOverride (.all dryRunMapping) ff)
        none).tasks.all fun g => g.all fun t => t.state == State.success) = true ∧
    (parse_file_and_simulate (.ok ff) none).exitCode = PROC_SUCCESS := by
  have hov : ∀ t ∈ (applyOverride (.all dryRunMapping) ff).tasks,
      t.on_result = { continue_job := [0], terminate_job := [] } := by
    intro t ht
    simp only [applyOverride, dryRunMapping] at ht
    obtain ⟨u, _, rfl⟩ := List.mem_map.mp ht
    rfl
  have hcontains : ∀ t ∈ (applyOverride (.all dryRunMapping) ff).tasks,
      t.on_result.continue_job.contains (0 : Int) = true := by
    intro t ht
    rw [hov t ht]
    rfl
  have hsuccess := execute_factfile_sim_success _ hcontains none
  refine ⟨?_, rfl, ?_, ?_⟩
  · rw [List.all_eq_true]
    intro t ht
    exact decide_eq_true (hov t ht)
  · rw [List.all_eq_true]
    intro g hg
    rw [List.all_eq_true]
    intro t ht
    exact beq_iff_eq.mpr (hsuccess g hg t ht)
  · have hnofail : ((execute_factfile execute_simulation
        (applyOverride (.all dryRunMapping) ff) none).tasks.flatten.any
          fun t => t.state.isFailed) = false := by
      rw [Bool.eq_false_iff]
      intro hany
      obtain ⟨t, ht, hfail⟩ := List.any_eq_true.mp hany
      obtain ⟨g, hg, htg⟩ := List.mem_flatten.mp ht
      rw [hsuccess g hg t htg] at hfail
      simp [State.isFailed] at hfail
    unfold dryRunMapping at hnofail
    have h2 : parse_file_and_simulate (.ok ff) none =
        parse_file_and_execute_with_strategy (.ok ff)
          (.all { continue_job := [0], terminate_early := [] }) none
          (execute_factfile execute_simulation) none := rfl
    have h1 := (driver_exit_codes (.ok ff)
      (.all { continue_job := [0], terminate_early := [] }) none
      (execute_factfile execute_simulation) none).1
    rw [h2, h1]
    simp only [Except.map]
    rw [show startRejected (applyOverride
      (.all { continue_job := [0], terminate_early := [] }) ff) none = false from rfl]
    simp only [Bool.false_eq_true, if_false, hnofail]

end Factotum
